import Mathlib

/-!
Verification of the task-migration-state protocol from the dagster-airlift
tutorial example.

Source files embedded here:
* `tutorial_example_tests/integration_tests/conftest.py` — the
  `mark_tasks_migrated` fixture: a context manager that reads the migration
  state file, writes a document marking a requested set of tasks migrated,
  runs `reserialize_dags` and the scoped body, and restores the captured
  content in a `finally` block.
* `tutorial_example/dagster_defs/stages/migrate.py` — `dbt_project_path`,
  which asserts that the `TUTORIAL_DBT_PROJECT_DIR` environment variable is
  set and non-empty.

The migration-state reader (`is_migrated`), the YAML document
serializer/parser and the general path-derivation rule live in the
`dagster-airlift` library, which is not part of this fragment; those are
modelled from the spec and marked as such in their doc comments.
-/

/-- A single task record of a migration state document: `task_id` names a
task of the legacy workflow, `migrated` says whether the new orchestrator is
authoritative for it. -/
structure MigrationRecord where
  task_id : String
  migrated : Bool
  deriving Repr, DecidableEq

/-- A migration state document: an ordered sequence of task records. -/
structure MigrationState where
  tasks : List MigrationRecord
  deriving Repr, DecidableEq

/-- Modelled from the spec: `is_migrated(state, task_id)` of the migration
state store (the reader lives in the `dagster-airlift` library, outside this
fragment). It returns the stored flag of the first record whose id matches,
and `false` when no record matches — the "omitted = not migrated"
convention. -/
def is_migrated (s : MigrationState) (taskId : String) : Bool :=
  match s.tasks.find? (fun r => r.task_id == taskId) with
  | some r => r.migrated
  | none => false

/-- The two execution backends of the hybrid system. -/
inductive Executor where
  | newOrchestrator : Executor
  | legacyOrchestrator : Executor
  deriving Repr, DecidableEq

/-- Modelled from the spec: the execution-authority decision rule
`is_migrated(state, task_id) ? NEW_ORCHESTRATOR : LEGACY_ORCHESTRATOR`,
applied identically by both orchestrators. -/
def decideExecutor (s : MigrationState) (taskId : String) : Executor :=
  if is_migrated s taskId then Executor.newOrchestrator
  else Executor.legacyOrchestrator

/-! ## Document format: serialization and parsing

Modelled from the spec's external document format (section 6):
```
tasks:
  - id: <task_identifier:string>
    migrated: <true|false>
```
as produced by `yaml.dump({"tasks": [{"id": ..., "migrated": ...}, ...]})`
in `conftest.py` (keys emitted in sorted order: `id` before `migrated`).
Serialization and parsing are defined on `List Char` (the `data` of the
document string) so that proofs are ordinary list inductions. -/

/-- The characters introducing a record's id line. -/
def idLabel : List Char := "- id: ".data

/-- The full migrated-line for a migrated task. -/
def migTrueLine : List Char := "  migrated: true".data

/-- The full migrated-line for a non-migrated task. -/
def migFalseLine : List Char := "  migrated: false".data

/-- Header line of a document with at least one record. -/
def headerLine : List Char := "tasks:".data

/-- The whole first line of a document with no records (`yaml.dump` emits a
flow-style empty list). -/
def emptyDocLine : List Char := "tasks: []".data

/-- Characters of one serialized record: its id line and its migrated line,
each newline-terminated. -/
def recordChars (r : MigrationRecord) : List Char :=
  idLabel ++ r.task_id.data ++ '\n' ::
    ((if r.migrated then migTrueLine else migFalseLine) ++ ['\n'])

/-- Characters of a serialized record sequence. -/
def recordsChars : List MigrationRecord → List Char
  | [] => []
  | r :: rs => recordChars r ++ recordsChars rs

/-- Characters of a whole serialized document. -/
def serializeChars (rs : List MigrationRecord) : List Char :=
  match rs with
  | [] => emptyDocLine ++ ['\n']
  | _ => headerLine ++ '\n' :: recordsChars rs

/-- Serialize a migration state to its document string. -/
def serialize (s : MigrationState) : String :=
  String.mk (serializeChars s.tasks)

/-- Split a character sequence into its lines (separator `'\n'`, trailing
segment included, so a text ending in a newline yields a final empty
line). -/
def toLines : List Char → List (List Char)
  | [] => [[]]
  | c :: cs =>
    if c = '\n' then [] :: toLines cs
    else
      match toLines cs with
      | [] => [[c]]
      | l :: ls => (c :: l) :: ls

/-- Consume an expected literal from the front of a character sequence,
returning the remainder, or `none` when the front differs. -/
def dropLit : List Char → List Char → Option (List Char)
  | [], cs => some cs
  | _ :: _, [] => none
  | p :: ps, c :: cs => if c = p then dropLit ps cs else none

/-- Parse a record's migrated line. -/
def parseMigLine (l : List Char) : Option Bool :=
  if l = migTrueLine then some true
  else if l = migFalseLine then some false
  else none

/-- Parse the record lines of a document body (the final empty line left by
the trailing newline terminates the sequence). -/
def parseRecLines : List (List Char) → Option (List MigrationRecord)
  | [] => none
  | [l] => if l = [] then some [] else none
  | l1 :: l2 :: rest =>
    (dropLit idLabel l1).bind fun idChars =>
      (parseMigLine l2).bind fun b =>
        (parseRecLines rest).map fun rs =>
          { task_id := String.mk idChars, migrated := b } :: rs

/-- Parse a whole document from its characters. -/
def parseChars (cs : List Char) : Option (List MigrationRecord) :=
  match toLines cs with
  | [] => none
  | l0 :: rest =>
    if l0 = emptyDocLine then
      if rest = [[]] then some [] else none
    else if l0 = headerLine then parseRecLines rest
    else none

/-- Parse a document string into a migration state. -/
def parse (doc : String) : Option MigrationState :=
  (parseChars doc.data).map MigrationState.mk

/-! ## The `mark_tasks_migrated` fixture of `conftest.py`

```python
migration_state_file = dags_dir / "migration_state" / "rebuild_customers_list.yaml"
all_tasks = {"load_raw_customers", "build_dbt_models", "export_customers"}

@contextlib.contextmanager
def mark_tasks_migrated(migrated_tasks):
    with open(migration_state_file, "r") as f:
        contents = f.read()
    try:
        with open(migration_state_file, "w") as f:
            f.write(yaml.dump({"tasks": [
                {"id": task, "migrated": task in migrated_tasks}
                for task in all_tasks]}))
        reserialize_dags()
        yield
    finally:
        with open(migration_state_file, "w") as f:
            f.write(contents)
```

The file is modelled as `Option String` (`none` = the file is absent, so the
initial `open(..., "r")` raises `FileNotFoundError` before the `try` block);
`reserialize_dags` and the scoped body are opaque steps modelled by a flag
telling whether each completes or raises. -/

/-- The set of known tasks of the `rebuild_customers_list` workflow, as
enumerated by the `all_tasks` set literal in `conftest.py`. -/
def allTasks : List String :=
  ["load_raw_customers", "build_dbt_models", "export_customers"]

/-- The records the fixture writes: one per known task, flagged by
membership in the requested set (`task in migrated_tasks`). -/
def writtenRecords (migratedTasks : List String) : List MigrationRecord :=
  allTasks.map fun t => { task_id := t, migrated := migratedTasks.contains t }

/-- The document content the fixture writes inside the scope
(`yaml.dump({"tasks": [...]})`). -/
def scopeWrittenContent (migratedTasks : List String) : String :=
  serialize { tasks := writtenRecords migratedTasks }

/-- The errors the fixture can let escape. -/
inductive PyErr where
  | fileNotFound : PyErr
  | reserializeError : PyErr
  | bodyError : PyErr
  deriving Repr, DecidableEq

/-- Whether the scope exits normally or with a propagating exception. -/
inductive PyOutcome where
  | success : PyOutcome
  | raised : PyErr → PyOutcome
  deriving Repr, DecidableEq

/-- Reading the migration state file: raises `FileNotFoundError` when the
file is absent. -/
def readFile : Option String → Except PyErr String
  | none => Except.error PyErr.fileNotFound
  | some c => Except.ok c

/-- Writing the migration state file: replaces its content wholesale. -/
def writeFile (_file : Option String) (c : String) : Option String :=
  some c

/-- One run of the `mark_tasks_migrated` context manager: given the file's
starting content, the requested migrated task set, and whether
`reserialize_dags` and the scoped body complete, it returns the file's final
content and the scope's outcome.  The `try` body first writes the new
document, then runs `reserialize_dags`, then the body; the `finally` block
writes the captured contents back on every exit path. -/
def runScope (file : Option String) (migratedTasks : List String)
    (reserializeOk : Bool) (bodyOk : Bool) : Option String × PyOutcome :=
  match readFile file with
  | Except.error e => (file, PyOutcome.raised e)
  | Except.ok contents =>
    let fileInScope := writeFile file (scopeWrittenContent migratedTasks)
    let tryResult : Option String × PyOutcome :=
      if reserializeOk then
        if bodyOk then (fileInScope, PyOutcome.success)
        else (fileInScope, PyOutcome.raised PyErr.bodyError)
      else (fileInScope, PyOutcome.raised PyErr.reserializeError)
    (writeFile tryResult.1 contents, tryResult.2)

/-! ## Path derivation -/

/-- Modelled from the spec: the migration state document of a workflow lives
at a path derived from the workflow's identifier under a fixed
`migration_state` subdirectory. -/
def migrationStateRelPath (workflowId : String) : List String :=
  ["migration_state", workflowId ++ ".yaml"]

/-- The concrete path used by `conftest.py`:
`dags_dir / "migration_state" / "rebuild_customers_list.yaml"`. -/
def conftestMigrationStateFile (dagsDir : List String) : List String :=
  dagsDir ++ ["migration_state", "rebuild_customers_list.yaml"]

/-! ## `dbt_project_path` of `migrate.py`

```python
def dbt_project_path() -> Path:
    env_val = os.getenv("TUTORIAL_DBT_PROJECT_DIR")
    assert env_val, "TUTORIAL_DBT_PROJECT_DIR must be set"
    return Path(env_val)
```

The environment is modelled as `Option String` (`none` = variable unset);
`assert env_val` raises `AssertionError` exactly when `env_val` is falsy,
i.e. `None` or the empty string. -/

/-- Python truthiness of a string: `""` is falsy, everything else truthy. -/
def strTruthy (s : String) : Bool :=
  s != ""

/-- `dbt_project_path`, over the value of `TUTORIAL_DBT_PROJECT_DIR`:
returns the path built from the variable's value, or an `AssertionError`
carrying the assertion message when the variable is unset or empty. -/
def dbt_project_path (envVal : Option String) : Except String String :=
  match envVal with
  | none => Except.error "TUTORIAL_DBT_PROJECT_DIR must be set"
  | some v =>
    if strTruthy v then Except.ok v
    else Except.error "TUTORIAL_DBT_PROJECT_DIR must be set"

/-! ## Round-trip lemmas for the document format -/

/-- Splitting a newline-free line followed by a newline peels off exactly
that line. -/
lemma toLines_append (l r : List Char) (h : '\n' ∉ l) :
    toLines (l ++ '\n' :: r) = l :: toLines r := by
  induction l with
  | nil => simp [toLines]
  | cons c cs ih =>
    have hc : c ≠ '\n' := fun hc => h (hc ▸ List.mem_cons_self c cs)
    have hcs : '\n' ∉ cs := fun hm => h (List.mem_cons_of_mem c hm)
    simp only [List.cons_append, toLines, if_neg hc, List.append_eq]
    rw [ih hcs]

/-- Consuming a literal from a text that starts with it returns the rest. -/
lemma dropLit_append (p rest : List Char) : dropLit p (p ++ rest) = some rest := by
  induction p with
  | nil => simp [dropLit]
  | cons c cs ih => simp [dropLit, ih]

/-- The id label contains no newline. -/
lemma newline_not_mem_idLabel : '\n' ∉ idLabel := by decide

/-- Rebuilding a string from its characters is the identity. -/
lemma mk_data_eq (s : String) : String.mk s.data = s := rfl

/-- Parsing the migrated-line of a record recovers its flag. -/
lemma parseMigLine_of_record (b : Bool) :
    parseMigLine (if b then migTrueLine else migFalseLine) = some b := by
  cases b <;> simp [parseMigLine, migTrueLine, migFalseLine]

/-- Parsing the lines of a serialized record sequence recovers the
records, provided no task id contains a newline. -/
lemma parseRecLines_recordsChars (rs : List MigrationRecord)
    (h : ∀ r ∈ rs, '\n' ∉ r.task_id.data) :
    parseRecLines (toLines (recordsChars rs)) = some rs := by
  induction rs with
  | nil => simp [recordsChars, toLines, parseRecLines]
  | cons r rs ih =>
    have hid : '\n' ∉ r.task_id.data := h r (List.mem_cons_self r rs)
    have hrest : ∀ x ∈ rs, '\n' ∉ x.task_id.data := fun x hx =>
      h x (List.mem_cons_of_mem r hx)
    have hline1 : '\n' ∉ idLabel ++ r.task_id.data := by
      intro hm
      rcases List.mem_append.mp hm with hm | hm
      · exact newline_not_mem_idLabel hm
      · exact hid hm
    have hmig : '\n' ∉ (if r.migrated then migTrueLine else migFalseLine) := by
      cases r.migrated <;> decide
    have hshape : recordsChars (r :: rs)
        = (idLabel ++ r.task_id.data) ++ '\n' ::
          ((if r.migrated then migTrueLine else migFalseLine) ++
            '\n' :: recordsChars rs) := by
      simp [recordsChars, recordChars, List.append_assoc]
    rw [hshape, toLines_append _ _ hline1, toLines_append _ _ hmig]
    simp only [parseRecLines]
    rw [dropLit_append, parseMigLine_of_record, ih hrest]
    simp [mk_data_eq]

/-- Parsing a serialized record list recovers it, provided no task id
contains a newline. -/
lemma parseChars_serializeChars (rs : List MigrationRecord)
    (h : ∀ r ∈ rs, '\n' ∉ r.task_id.data) :
    parseChars (serializeChars rs) = some rs := by
  cases rs with
  | nil =>
    show parseChars (emptyDocLine ++ '\n' :: []) = some []
    rw [parseChars, toLines_append _ _ (by decide : '\n' ∉ emptyDocLine)]
    simp [toLines]
  | cons r rs' =>
    show parseChars (headerLine ++ '\n' :: recordsChars (r :: rs')) = some (r :: rs')
    rw [parseChars, toLines_append _ _ (by decide : '\n' ∉ headerLine)]
    have hne : headerLine ≠ emptyDocLine := by decide
    simp [hne, parseRecLines_recordsChars _ h]

/-- Round trip at the string level: parsing a serialized state recovers it
exactly, provided no task id contains a newline. -/
lemma parse_serialize (s : MigrationState)
    (h : ∀ r ∈ s.tasks, '\n' ∉ r.task_id.data) :
    parse (serialize s) = some s := by
  obtain ⟨rs⟩ := s
  show (parseChars (String.mk (serializeChars rs)).data).map MigrationState.mk
    = some ⟨rs⟩
  rw [show (String.mk (serializeChars rs)).data = serializeChars rs from rfl,
    parseChars_serializeChars rs h]
  rfl

/-! ## Lemmas about the fixture's written document -/

/-- The ids of the written records are exactly the known tasks, in order. -/
lemma writtenRecords_map_id (m : List String) :
    (writtenRecords m).map MigrationRecord.task_id = allTasks := by
  rfl

/-- The known-task list has no duplicates. -/
lemma allTasks_nodup : allTasks.Nodup := by decide

/-- No known task id contains a newline. -/
lemma allTasks_no_newline : ∀ t ∈ allTasks, '\n' ∉ t.data := by decide

/-- Looking a known task up in the written records finds exactly its
record, flagged by membership in the requested set. -/
lemma find?_writtenRecords (m : List String) (t : String) (ht : t ∈ allTasks) :
    (writtenRecords m).find? (fun r => r.task_id == t)
      = some { task_id := t, migrated := m.contains t } := by
  simp only [allTasks, List.mem_cons, List.not_mem_nil, or_false] at ht
  rcases ht with rfl | rfl | rfl <;>
    simp [writtenRecords, allTasks, List.find?]

/-- Every record the fixture writes names a known task. -/
lemma writtenRecords_id_mem (m : List String) :
    ∀ r ∈ writtenRecords m, r.task_id ∈ allTasks := by
  intro r hr
  have : r.task_id ∈ (writtenRecords m).map MigrationRecord.task_id :=
    List.mem_map_of_mem MigrationRecord.task_id hr
  rwa [writtenRecords_map_id] at this

/-- No record the fixture writes has a newline in its id. -/
lemma writtenRecords_no_newline (m : List String) :
    ∀ r ∈ writtenRecords m, '\n' ∉ r.task_id.data := fun r hr =>
  allTasks_no_newline r.task_id (writtenRecords_id_mem m r hr)

/-- In a document with unique ids, `find?` on a member's id returns exactly
that member. -/
lemma find?_of_mem_nodup (l : List MigrationRecord) (r : MigrationRecord)
    (hnd : (l.map MigrationRecord.task_id).Nodup) (hr : r ∈ l) :
    l.find? (fun x => x.task_id == r.task_id) = some r := by
  induction l with
  | nil => exact absurd hr (List.not_mem_nil r)
  | cons a l ih =>
    rw [List.map_cons, List.nodup_cons] at hnd
    rcases List.mem_cons.mp hr with rfl | hr'
    · simp [List.find?]
    · have ha : (a.task_id == r.task_id) = false := by
        rw [beq_eq_false_iff_ne]
        intro he
        exact hnd.1 (he ▸ List.mem_map_of_mem MigrationRecord.task_id hr')
      simp only [List.find?, ha]
      exact ih hnd.2 hr'

/-- A migration state document with every known task explicitly
not-migrated, as in the scenario of the spec. -/
def legacyDoc : MigrationState :=
  { tasks := [{ task_id := "load_raw_customers", migrated := false },
              { task_id := "build_dbt_models", migrated := false },
              { task_id := "export_customers", migrated := false }] }

/-! ## Claims -/

/-- C1: for every migration state and task id, the decision rule assigns
exactly one authoritative executor — the new orchestrator exactly when
`is_migrated` holds, the legacy orchestrator exactly when it does not;
never both, never neither. -/
theorem decision_rule_exactly_one (s : MigrationState) (t : String) :
    (decideExecutor s t = Executor.newOrchestrator ∨
      decideExecutor s t = Executor.legacyOrchestrator)
    ∧ ¬(decideExecutor s t = Executor.newOrchestrator ∧
        decideExecutor s t = Executor.legacyOrchestrator)
    ∧ (decideExecutor s t = Executor.newOrchestrator ↔ is_migrated s t = true)
    ∧ (decideExecutor s t = Executor.legacyOrchestrator
        ↔ is_migrated s t = false) := by
  unfold decideExecutor
  cases h : is_migrated s t <;> simp [h]

/-- Witness for C1: on the all-false document of the spec's scenario, all
three tasks resolve to the legacy orchestrator. -/
theorem decision_rule_exactly_one_witness :
    decideExecutor legacyDoc "load_raw_customers" = Executor.legacyOrchestrator
    ∧ decideExecutor legacyDoc "build_dbt_models" = Executor.legacyOrchestrator
    ∧ decideExecutor legacyDoc "export_customers"
        = Executor.legacyOrchestrator :=
  ⟨(decision_rule_exactly_one legacyDoc "load_raw_customers").2.2.2.mpr
      (by decide),
   (decision_rule_exactly_one legacyDoc "build_dbt_models").2.2.2.mpr
      (by decide),
   (decision_rule_exactly_one legacyDoc "export_customers").2.2.2.mpr
      (by decide)⟩

/-- C2: whatever the starting content, the requested set, and whether
`reserialize_dags` and the scoped body complete or raise, the file's
content after the scope exits equals the content captured before it
began. -/
theorem scope_restores_content (c : String) (m : List String)
    (reserializeOk bodyOk : Bool) :
    (runScope (some c) m reserializeOk bodyOk).1 = some c := by
  cases reserializeOk <;> cases bodyOk <;> rfl

/-- C3: the document the scope writes expresses exactly the requested set:
each known task's record is flagged by membership in the request, and
`is_migrated` on the parsed document agrees with membership. -/
theorem scope_written_doc_matches_request (m : List String) (t : String)
    (ht : t ∈ allTasks) :
    ∃ s : MigrationState,
      parse (scopeWrittenContent m) = some s
      ∧ s.tasks.find? (fun r => r.task_id == t)
          = some { task_id := t, migrated := m.contains t }
      ∧ (is_migrated s t = true ↔ t ∈ m) := by
  refine ⟨{ tasks := writtenRecords m }, ?_, ?_, ?_⟩
  · exact parse_serialize _ (writtenRecords_no_newline m)
  · exact find?_writtenRecords m t ht
  · rw [is_migrated]
    simp [find?_writtenRecords m t ht]

/-- Witness for C3, the spec's scenario: requesting `{export_customers}`
makes `is_migrated` true for `export_customers` in the written document. -/
theorem scope_written_doc_matches_request_witness :
    ("export_customers" ∈ allTasks)
    ∧ ∃ s : MigrationState,
        parse (scopeWrittenContent ["export_customers"]) = some s
        ∧ s.tasks.find? (fun r => r.task_id == "export_customers")
            = some { task_id := "export_customers",
                     migrated := List.contains ["export_customers"]
                       "export_customers" }
        ∧ (is_migrated s "export_customers" = true
            ↔ "export_customers" ∈ ["export_customers"]) :=
  ⟨by decide,
   scope_written_doc_matches_request ["export_customers"] "export_customers"
     (by decide)⟩

/-- C4: the document the scope writes is well-formed — it parses, and its
records carry each known task's id exactly once, with no duplicates and no
omissions. -/
theorem written_doc_wellformed (m : List String) :
    ∃ s : MigrationState,
      parse (scopeWrittenContent m) = some s
      ∧ s.tasks.map MigrationRecord.task_id = allTasks
      ∧ (s.tasks.map MigrationRecord.task_id).Nodup :=
  ⟨{ tasks := writtenRecords m },
   parse_serialize _ (writtenRecords_no_newline m),
   writtenRecords_map_id m,
   by rw [writtenRecords_map_id]; exact allTasks_nodup⟩

/-- C5: `is_migrated` is total — it returns `false` (not an error) for any
task id absent from the document, and the stored flag for a present one
(uniquely determined when ids are unique). -/
theorem is_migrated_total_absent_false (s : MigrationState) (t : String) :
    (t ∉ s.tasks.map MigrationRecord.task_id → is_migrated s t = false)
    ∧ (∀ r ∈ s.tasks, r.task_id = t →
        (s.tasks.map MigrationRecord.task_id).Nodup →
        is_migrated s t = r.migrated) := by
  constructor
  · intro hnot
    have hfind : s.tasks.find? (fun r => r.task_id == t) = none := by
      rw [List.find?_eq_none]
      intro r hr hbeq
      have heq : r.task_id = t := by simpa using hbeq
      exact hnot (heq ▸ List.mem_map_of_mem MigrationRecord.task_id hr)
    rw [is_migrated, hfind]
  · intro r hr heq hnd
    subst heq
    rw [is_migrated, find?_of_mem_nodup s.tasks r hnd hr]

/-- Witness for C5: in a one-record document, the absent id `new_task`
resolves to `false` and the present id returns its stored flag. -/
theorem is_migrated_total_absent_false_witness :
    is_migrated { tasks := [{ task_id := "build_dbt_models", migrated := true }] }
      "new_task" = false
    ∧ is_migrated
        { tasks := [{ task_id := "build_dbt_models", migrated := true }] }
        "build_dbt_models" = true :=
  ⟨(is_migrated_total_absent_false
      { tasks := [{ task_id := "build_dbt_models", migrated := true }] }
      "new_task").1 (by decide),
   (is_migrated_total_absent_false
      { tasks := [{ task_id := "build_dbt_models", migrated := true }] }
      "build_dbt_models").2
     { task_id := "build_dbt_models", migrated := true }
     (by decide) rfl (by decide)⟩

/-- C6: serializing a migration state and re-parsing the result yields a
state with the same set of records (here: the very same records), provided
no task id contains a newline — the document format's plain scalars cannot
express one. -/
theorem serialize_parse_round_trip (s : MigrationState)
    (h : ∀ r ∈ s.tasks, '\n' ∉ r.task_id.data) :
    ∃ s' : MigrationState,
      parse (serialize s) = some s'
      ∧ ∀ r : MigrationRecord, r ∈ s'.tasks ↔ r ∈ s.tasks :=
  ⟨s, parse_serialize s h, fun _ => Iff.rfl⟩

/-- Witness for C6: the round trip on the all-false tutorial document. -/
theorem serialize_parse_round_trip_witness :
    (∀ r ∈ legacyDoc.tasks, '\n' ∉ r.task_id.data)
    ∧ ∃ s' : MigrationState,
        parse (serialize legacyDoc) = some s'
        ∧ ∀ r : MigrationRecord, r ∈ s'.tasks ↔ r ∈ legacyDoc.tasks :=
  ⟨by decide, serialize_parse_round_trip legacyDoc (by decide)⟩

/-- C7: the migration state document's path is the workflow's id plus the
`.yaml` suffix under the fixed `migration_state` subdirectory; the
conftest's concrete path for `rebuild_customers_list` is exactly that
derivation. -/
theorem migration_state_path_convention (dagsDir : List String) :
    conftestMigrationStateFile dagsDir
      = dagsDir ++ migrationStateRelPath "rebuild_customers_list"
    ∧ migrationStateRelPath "rebuild_customers_list"
      = ["migration_state", "rebuild_customers_list.yaml"] :=
  ⟨rfl, rfl⟩

/-- C8: the written document carries exactly the three known task ids; a
requested id outside the known set produces no record and no error — the
scope still completes normally. -/
theorem unknown_requested_tasks_ignored (c : String) (m : List String) :
    (parse (scopeWrittenContent m)).map (fun s => s.tasks.map MigrationRecord.task_id)
      = some allTasks
    ∧ (∀ x ∈ m, x ∉ allTasks → ∀ r ∈ writtenRecords m, r.task_id ≠ x)
    ∧ runScope (some c) m true true = (some c, PyOutcome.success) := by
  refine ⟨?_, ?_, rfl⟩
  · show (parse (serialize { tasks := writtenRecords m })).map
      (fun s => s.tasks.map MigrationRecord.task_id) = some allTasks
    rw [parse_serialize { tasks := writtenRecords m } (writtenRecords_no_newline m)]
    simp [writtenRecords_map_id]
  · intro x _ hxnot r hr heq
    exact hxnot (heq ▸ writtenRecords_id_mem m r hr)

/-- Witness for C8: requesting the unknown id `bogus_task` yields no record
for it and a normally completing scope. -/
theorem unknown_requested_tasks_ignored_witness :
    ("bogus_task" ∈ ["bogus_task"] ∧ "bogus_task" ∉ allTasks)
    ∧ (∀ r ∈ writtenRecords ["bogus_task"], r.task_id ≠ "bogus_task")
    ∧ runScope (some "orig") ["bogus_task"] true true
        = (some "orig", PyOutcome.success) :=
  ⟨⟨by decide, by decide⟩,
   (unknown_requested_tasks_ignored "orig" ["bogus_task"]).2.1 "bogus_task"
     (by decide) (by decide),
   (unknown_requested_tasks_ignored "orig" ["bogus_task"]).2.2⟩

/-- C9: when the migration state file is absent, the initial read raises
before any write: the error propagates and the file is left exactly as it
was. -/
theorem absent_file_error_before_write (m : List String)
    (reserializeOk bodyOk : Bool) :
    runScope none m reserializeOk bodyOk
      = (none, PyOutcome.raised PyErr.fileNotFound) := rfl

/-- C10: `dbt_project_path` fails with the assertion message exactly when
`TUTORIAL_DBT_PROJECT_DIR` is unset or empty, and otherwise returns the
path equal to the variable's value. -/
theorem dbt_project_path_requires_env (envVal : Option String) :
    ((envVal = none ∨ envVal = some "") →
      dbt_project_path envVal
        = Except.error "TUTORIAL_DBT_PROJECT_DIR must be set")
    ∧ (∀ v, envVal = some v → v ≠ "" →
        dbt_project_path envVal = Except.ok v) := by
  constructor
  · rintro (rfl | rfl) <;> rfl
  · rintro v rfl hv
    rw [dbt_project_path]
    simp [strTruthy, hv]

/-- Witness for C10: the empty value fails the assertion; a non-empty value
is returned as the path. -/
theorem dbt_project_path_requires_env_witness :
    dbt_project_path (some "")
      = Except.error "TUTORIAL_DBT_PROJECT_DIR must be set"
    ∧ dbt_project_path (some "/tutorial/dbt") = Except.ok "/tutorial/dbt" :=
  ⟨(dbt_project_path_requires_env (some "")).1 (Or.inr rfl),
   (dbt_project_path_requires_env (some "/tutorial/dbt")).2 "/tutorial/dbt"
     rfl (by decide)⟩

